import Mathlib

/-!
Shallow embedding of `oauthenticator/src/oauthenticator/azuread.py`
(`AzureAdOAuthenticator`): Azure AD OAuth2 / OpenID-Connect authentication
for JupyterHub.  The embedding models:

* JSON values (as produced by Python's `json.loads`, integers only — no
  float appears anywhere in this flow);
* Python `dict` semantics (insertion order preserved, duplicate assignment
  overwrites in place);
* the URL-resolution defaults `_authorize_url_default` / `_token_url_default`;
* the ID-token decoding performed through `jwt.decode` of pyjwt
  (base64url of the payload segment, parsed as JSON, no signature check);
* `AzureAdOAuthenticator.authenticate` and
  `AzureAdOAuthenticator.get_user_attributes`, with the network modelled as
  an oracle mapping an HTTP request to an optional parsed-JSON response
  body (`none` = body that is not valid JSON).

Errors are represented by the Python exception that the corresponding line
raises.
-/

namespace AzureAd

/-- JSON values.  Numbers are modelled as integers: no fractional number
occurs in any value handled by this module (tokens, claims, URLs are all
strings), so `json.loads` is embedded on the integer fragment of JSON. -/
inductive Json where
  | null : Json
  | bool (b : Bool) : Json
  | num (n : Int) : Json
  | str (s : String) : Json
  | arr (elems : List Json) : Json
  | obj (fields : List (String × Json)) : Json

/-- Python `dict` lookup `d[k]` (as an `Option`): first binding with the
key.  Objects built by `dictInsert` keep keys unique, matching `dict`. -/
def dictGet (fields : List (String × Json)) (k : String) : Option Json :=
  match fields with
  | [] => none
  | (k', v) :: rest => if k' = k then some v else dictGet rest k

/-- Python `dict` assignment `d[k] = v`: overwrites in place if the key is
present (keeping its position), else appends — `dict` insertion order. -/
def dictInsert (fields : List (String × Json)) (k : String) (v : Json) :
    List (String × Json) :=
  match fields with
  | [] => [(k, v)]
  | (k', v') :: rest =>
      if k' = k then (k', v) :: rest else (k', v') :: dictInsert rest k v

/-- The Python exception raised by a failing step of the flow. -/
inductive PyError where
  /-- `json.JSONDecodeError` — response body is not valid JSON
  (the spec's ProtocolError). -/
  | jsonDecodeError : PyError
  /-- `KeyError k` — subscripting a `dict` that lacks key `k`. -/
  | keyError (k : String) : PyError
  /-- `TypeError` — subscripting a non-`dict` JSON value with a string key. -/
  | typeError : PyError
  /-- `jwt.DecodeError` — malformed ID token (bad segments / base64 /
  payload JSON). -/
  | jwtDecodeError : PyError
  /-- `ValueError msg` — raised by the URL-resolution defaults for an
  invalid `access_token_version` (the spec's ConfigurationError). -/
  | valueError (msg : String) : PyError
deriving DecidableEq, Repr

/-- Python `j[k]` on a parsed-JSON value: `KeyError` when the key is
missing, `TypeError` when `j` is not an object. -/
def getItem (j : Json) (k : String) : Except PyError Json :=
  match j with
  | .obj fields =>
      match dictGet fields k with
      | some v => .ok v
      | none => .error (.keyError k)
  | _ => .error .typeError

/-- Provider configuration of `AzureAdOAuthenticator`: the traits used by
the embedded methods.  `access_token_version` is the class attribute
(source value `1`, overridable by subclassing, hence kept symbolic). -/
structure Config where
  tenant_id : String
  access_token_version : Int
  client_id : String
  client_secret : String
  username_claim : String
deriving DecidableEq, Repr

/-- `_username_claim_default` (azuread.py line 41-42): the default value of
the `username_claim` trait. -/
def username_claim_default : String := "name"

/-- `_tenant_id_default` (azuread.py line 34-36): the default tenant is
`os.environ.get('AAD_TENANT_ID', '')`; with the variable unset it is the
empty string, taken here as the parameter `env_AAD_TENANT_ID`. -/
def tenant_id_default (env_AAD_TENANT_ID : Option String) : String :=
  match env_AAD_TENANT_ID with
  | some v => v
  | none => ""

/-- `_authorize_url_default` (azuread.py lines 44-51): derives the
authorize URL from `tenant_id` and `access_token_version`, raising
`ValueError('Invalid token version!')` for a version other than 1 or 2. -/
def authorize_url_default (cfg : Config) : Except PyError String :=
  if cfg.access_token_version = 1 then
    .ok ("https://login.microsoftonline.com/" ++ cfg.tenant_id ++ "/oauth2/authorize")
  else if cfg.access_token_version = 2 then
    .ok ("https://login.microsoftonline.com/" ++ cfg.tenant_id ++ "/oauth2/v2.0/authorize")
  else
    .error (.valueError "Invalid token version!")

/-- `_token_url_default` (azuread.py lines 53-60): derives the token URL
from `tenant_id` and `access_token_version`, raising
`ValueError('Invalid token version!')` for a version other than 1 or 2. -/
def token_url_default (cfg : Config) : Except PyError String :=
  if cfg.access_token_version = 1 then
    .ok ("https://login.microsoftonline.com/" ++ cfg.tenant_id ++ "/oauth2/token")
  else if cfg.access_token_version = 2 then
    .ok ("https://login.microsoftonline.com/" ++ cfg.tenant_id ++ "/oauth2/v2.0/token")
  else
    .error (.valueError "Invalid token version!")

/-! ### Percent-encoding: `urllib.parse.urlencode(params, doseq=True, encoding='utf-8', safe='=')` -/

/-- UTF-8 encoding of one character, as a list of byte values. -/
def utf8Bytes (c : Char) : List Nat :=
  let n := c.toNat
  if n < 0x80 then [n]
  else if n < 0x800 then [0xC0 + n / 64, 0x80 + n % 64]
  else if n < 0x10000 then [0xE0 + n / 4096, 0x80 + (n / 64) % 64, 0x80 + n % 64]
  else [0xF0 + n / 262144, 0x80 + (n / 4096) % 64, 0x80 + (n / 64) % 64, 0x80 + n % 64]

/-- Uppercase hexadecimal digit, as used by `urllib.parse.quote`. -/
def hexDigit (n : Nat) : Char :=
  if n < 10 then Char.ofNat (48 + n) else Char.ofNat (55 + n)

/-- The bytes `urllib.parse.quote` never escapes: ALPHA / DIGIT / `_.-~`. -/
def isAlwaysSafe (b : Nat) : Bool :=
  (65 ≤ b && b ≤ 90) || (97 ≤ b && b ≤ 122) || (48 ≤ b && b ≤ 57) ||
    b == 95 || b == 46 || b == 45 || b == 126

/-- One byte under `urllib.parse.quote_plus` with extra safe characters
`safe`: space becomes `+`, safe bytes pass through, the rest become
`%XX` with uppercase hex. -/
def quotePlusByte (safe : List Char) (b : Nat) : List Char :=
  if b == 32 then ['+']
  else if isAlwaysSafe b || (b < 128 && safe.contains (Char.ofNat b)) then
    [Char.ofNat b]
  else
    ['%', hexDigit (b / 16), hexDigit (b % 16)]

/-- `urllib.parse.quote_plus(s, safe, encoding='utf-8')`. -/
def quote_plus (safe : List Char) (s : String) : String :=
  String.mk ((s.data.flatMap utf8Bytes).flatMap (quotePlusByte safe))

/-- `urllib.parse.urlencode(params, doseq=True, encoding='utf-8', safe='=')`
as called at azuread.py lines 71-73 and 112-113.  `params` is the flattened
key/value list: with `doseq=True` the one list-valued parameter (`scope`,
a singleton list) contributes one pair per element. -/
def urlencode (params : List (String × String)) : String :=
  String.intercalate "&"
    (params.map (fun kv => quote_plus ['='] kv.1 ++ "=" ++ quote_plus ['='] kv.2))

/-! ### Base64url decoding, as performed inside `jwt.decode`

pyjwt's `base64url_decode` pads its input with `=` to a multiple of four
characters and calls `base64.urlsafe_b64decode`.  The embedding decodes the
unpadded input directly: a trailing group of two or three characters is the
padded group.  (Python's decoder silently discards characters outside the
base64 alphabet before decoding; the embedding rejects them instead — no
claim exercises invalid base64 input.) -/

/-- Value of one base64url alphabet character (`A-Z a-z 0-9 - _`). -/
def b64Val (c : Char) : Option Nat :=
  let n := c.toNat
  if 65 ≤ n && n ≤ 90 then some (n - 65)
  else if 97 ≤ n && n ≤ 122 then some (n - 71)
  else if 48 ≤ n && n ≤ 57 then some (n + 4)
  else if n == 45 then some 62
  else if n == 95 then some 63
  else none

/-- Decode one full group of four base64 characters into three bytes. -/
def b64Group4 (a b c d : Char) : Option (List Nat) := do
  let x ← b64Val a
  let y ← b64Val b
  let z ← b64Val c
  let w ← b64Val d
  pure [x * 4 + y / 16, (y % 16) * 16 + z / 4, (z % 4) * 64 + w]

/-- Base64url-decode a character list into byte values. -/
def b64DecodeChars : List Char → Option (List Nat)
  | [] => some []
  | [a, b] => do
      let x ← b64Val a
      let y ← b64Val b
      pure [x * 4 + y / 16]
  | [a, b, c] => do
      let x ← b64Val a
      let y ← b64Val b
      let z ← b64Val c
      pure [x * 4 + y / 16, (y % 16) * 16 + z / 4]
  | a :: b :: c :: d :: rest => do
      let g ← b64Group4 a b c d
      let r ← b64DecodeChars rest
      pure (g ++ r)
  | [_] => none

/-- Decode a byte list as text.  The embedding covers ASCII payloads
(non-ASCII text appears in JWT JSON via `\u` escapes in the cases
considered; no claim depends on raw multi-byte UTF-8 in a payload). -/
def asciiChars : List Nat → Option (List Char)
  | [] => some []
  | b :: rest =>
      if b < 128 then (asciiChars rest).map (fun cs => Char.ofNat b :: cs)
      else none

/-! ### JSON parsing: `json.loads` on the integer fragment of JSON

The parser accepts objects, arrays, strings (with the standard escapes and
non-surrogate `\uXXXX`), integers, `true`, `false`, `null`, and the four
JSON whitespace characters.  Fractional/exponent numbers are rejected
(`Json.num` is an integer); nothing in this module produces or consumes
them.  Duplicate object keys overwrite, as in a Python `dict`. -/

/-- JSON whitespace: space, tab, line feed, carriage return. -/
def isJsonWs (c : Char) : Bool :=
  c == ' ' || c == Char.ofNat 9 || c == Char.ofNat 10 || c == Char.ofNat 13

/-- Drop leading JSON whitespace. -/
def skipWs : List Char → List Char
  | [] => []
  | c :: rest => if isJsonWs c then skipWs rest else c :: rest

/-- Value of one hexadecimal digit. -/
def hexVal (c : Char) : Option Nat :=
  let n := c.toNat
  if 48 ≤ n && n ≤ 57 then some (n - 48)
  else if 65 ≤ n && n ≤ 70 then some (n - 55)
  else if 97 ≤ n && n ≤ 102 then some (n - 87)
  else none

/-- Parse the remainder of a JSON string (the opening quote already
consumed); returns the string's characters and the rest of the input. -/
def parseJString : List Char → Option (List Char × List Char)
  | [] => none
  | '"' :: rest => some ([], rest)
  | '\\' :: '"' :: rest => (parseJString rest).map (fun p => ('"' :: p.1, p.2))
  | '\\' :: '\\' :: rest => (parseJString rest).map (fun p => ('\\' :: p.1, p.2))
  | '\\' :: '/' :: rest => (parseJString rest).map (fun p => ('/' :: p.1, p.2))
  | '\\' :: 'b' :: rest => (parseJString rest).map (fun p => (Char.ofNat 8 :: p.1, p.2))
  | '\\' :: 'f' :: rest => (parseJString rest).map (fun p => (Char.ofNat 12 :: p.1, p.2))
  | '\\' :: 'n' :: rest => (parseJString rest).map (fun p => (Char.ofNat 10 :: p.1, p.2))
  | '\\' :: 'r' :: rest => (parseJString rest).map (fun p => (Char.ofNat 13 :: p.1, p.2))
  | '\\' :: 't' :: rest => (parseJString rest).map (fun p => (Char.ofNat 9 :: p.1, p.2))
  | '\\' :: 'u' :: h1 :: h2 :: h3 :: h4 :: rest => do
      let a ← hexVal h1
      let b ← hexVal h2
      let c ← hexVal h3
      let d ← hexVal h4
      let n := ((a * 16 + b) * 16 + c) * 16 + d
      if 0xD800 ≤ n && n < 0xE000 then none
      else (parseJString rest).map (fun p => (Char.ofNat n :: p.1, p.2))
  | '\\' :: _ => none
  | c :: rest => (parseJString rest).map (fun p => (c :: p.1, p.2))

/-- Consume a maximal run of decimal digits, accumulating their value. -/
def digitsLoop : List Char → Nat → Nat × List Char
  | [], acc => (acc, [])
  | c :: rest, acc =>
      if c.isDigit then digitsLoop rest (acc * 10 + (c.toNat - 48))
      else (acc, c :: rest)

/-- Parse a JSON integer (optional minus sign, at least one digit); a
following `.`, `e` or `E` would start an unsupported fractional number. -/
def parseJInt (cs : List Char) : Option (Int × List Char) :=
  let core : List Char → Option (Nat × List Char) := fun l =>
    match l with
    | c :: rest =>
        if c.isDigit then some (digitsLoop rest (c.toNat - 48))
        else none
    | [] => none
  match cs with
  | '-' :: rest =>
      match core rest with
      | some (n, r) =>
          match r with
          | c :: _ => if c == '.' || c == 'e' || c == 'E' then none else some (-(n : Int), r)
          | [] => some (-(n : Int), r)
      | none => none
  | _ =>
      match core cs with
      | some (n, r) =>
          match r with
          | c :: _ => if c == '.' || c == 'e' || c == 'E' then none else some ((n : Int), r)
          | [] => some ((n : Int), r)
      | none => none

/-- Parser tasks: a value, the members of an object, or the elements of an
array (with the fields/elements parsed so far). -/
inductive PTask where
  | val : PTask
  | objFields (acc : List (String × Json)) : PTask
  | arrElems (acc : List Json) : PTask

/-- Fuel-indexed recursive-descent JSON parser.  `fuel` bounds the number
of recursive steps; `jsonLoads` supplies more fuel than any input can
consume, so the bound is never the reason a parse fails. -/
def jparse : Nat → PTask → List Char → Option (Json × List Char)
  | 0, _, _ => none
  | Nat.succ fuel, .val, cs =>
      match skipWs cs with
      | '"' :: rest => (parseJString rest).map (fun p => (Json.str (String.mk p.1), p.2))
      | '{' :: rest =>
          (match skipWs rest with
           | '}' :: rest2 => some (Json.obj [], rest2)
           | _ => jparse fuel (.objFields []) rest)
      | '[' :: rest =>
          (match skipWs rest with
           | ']' :: rest2 => some (Json.arr [], rest2)
           | _ => jparse fuel (.arrElems []) rest)
      | 't' :: 'r' :: 'u' :: 'e' :: rest => some (Json.bool true, rest)
      | 'f' :: 'a' :: 'l' :: 's' :: 'e' :: rest => some (Json.bool false, rest)
      | 'n' :: 'u' :: 'l' :: 'l' :: rest => some (Json.null, rest)
      | other => (parseJInt other).map (fun p => (Json.num p.1, p.2))
  | Nat.succ fuel, .objFields acc, cs =>
      (match skipWs cs with
       | '"' :: rest =>
           match parseJString rest with
           | none => none
           | some (key, rest1) =>
               match skipWs rest1 with
               | ':' :: rest2 =>
                   (match jparse fuel .val rest2 with
                    | none => none
                    | some (v, rest3) =>
                        let acc2 := dictInsert acc (String.mk key) v
                        match skipWs rest3 with
                        | ',' :: rest4 => jparse fuel (.objFields acc2) rest4
                        | '}' :: rest4 => some (Json.obj acc2, rest4)
                        | _ => none)
               | _ => none
       | _ => none)
  | Nat.succ fuel, .arrElems acc, cs =>
      (match jparse fuel .val cs with
       | none => none
       | some (v, rest) =>
           let acc2 := acc ++ [v]
           match skipWs rest with
           | ',' :: rest2 => jparse fuel (.arrElems acc2) rest2
           | ']' :: rest2 => some (Json.arr acc2, rest2)
           | _ => none)

/-- `json.loads` on a character list: parse one value surrounded only by
whitespace. -/
def jsonLoads (cs : List Char) : Option Json :=
  match jparse (2 * cs.length + 2) .val cs with
  | some (j, rest) => if (skipWs rest).isEmpty then some j else none
  | none => none

/-! ### `jwt.decode` without signature verification (pyjwt)

`jwt.decode` splits the compact token, base64url-decodes the header and
payload segments, parses both as JSON, and (with signature verification
disabled, as in both branches of azuread.py lines 133-141) returns the
payload claims.  The signature segment is base64-decoded and discarded;
Python's lenient base64 decoder accepts the signature strings considered
here, so that step is not modelled as a failure source. -/

/-- Python `s.split('.')` on a character list (the single-character-separator
split used by pyjwt's `_load`): the list of dot-free segments, one more
than the number of dots. -/
def splitDots : List Char → List (List Char)
  | [] => [[]]
  | c :: rest =>
      if c == '.' then [] :: splitDots rest
      else
        match splitDots rest with
        | seg :: segs => (c :: seg) :: segs
        | [] => [[c]]

/-- Split a compact JWT into (header, payload, signature) segments,
modelling `signing_input, crypto_segment = jwt.rsplit(b".", 1)` followed by
`header_segment, payload_segment = signing_input.split(b".", 1)` in pyjwt's
`_load`: fewer than two dots raises `DecodeError` (`none`); with more, the
payload segment is everything between the first and the last dot. -/
def jwtSplit (s : String) : Option (String × String × String) :=
  match splitDots s.data with
  | p1 :: p2 :: rest =>
      match (p2 :: rest).reverse with
      | lastSeg :: revMid =>
          match revMid with
          | [] => none
          | _ :: _ => some (String.mk p1,
              String.intercalate "." (revMid.reverse.map String.mk),
              String.mk lastSeg)
      | [] => none
  | _ => none

/-- Decode the claims of a compact JWT without verifying its signature:
the header segment must base64url-decode to a JSON object, and the payload
segment must base64url-decode to a JSON object, whose fields are returned
(pyjwt raises `DecodeError` otherwise). -/
def jwtPayloadDecode (idToken : String) : Option (List (String × Json)) := do
  let (hdr, payload, _sig) ← jwtSplit idToken
  let hbytes ← b64DecodeChars hdr.data
  let hchars ← asciiChars hbytes
  let hjson ← jsonLoads hchars
  match hjson with
  | .obj _ =>
      (do
        let pbytes ← b64DecodeChars payload.data
        let pchars ← asciiChars pbytes
        let pjson ← jsonLoads pchars
        match pjson with
        | .obj fields => some fields
        | _ => none)
  | _ => none

/-- `jwt.decode(id_token, verify=False)` under pyjwt 1.x (azuread.py
line 141): decodes the payload claims with no signature check and no claim
validation. -/
def jwt_decode_pyjwt1 (idToken : String) : Option (List (String × Json)) :=
  jwtPayloadDecode idToken

/-- `jwt.decode(id_token, options={"verify_signature": False},
audience=self.client_id)` under pyjwt >= 2 (azuread.py lines 134-138).
Per pyjwt's documented semantics (releases since 2.0.1, i.e. the 2.x
series in practice): when `verify_signature` is `False`, every other
verification option — `verify_aud` included — defaults to `False`, so the
`audience` argument is ignored and no claim validation is performed.  The
parameter is kept to mirror the call. -/
def jwt_decode_pyjwt2 (idToken : String) (_audience : String) :
    Option (List (String × Json)) :=
  jwtPayloadDecode idToken

/-! ### The two embedded methods

The network is an oracle `net : HTTPRequest → Option Json` giving, for
each issued request, the parsed-JSON response body (`none` models a
response whose body is not valid JSON; transport failures and non-2xx
responses likewise abort the flow without a result). -/

/-- An outbound HTTP request as built by the source (tornado
`HTTPRequest`): URL, method, headers, optional body. -/
structure HTTPRequest where
  url : String
  method : String
  headers : List (String × String)
  body : Option String
deriving DecidableEq, Repr

/-- The header dict used for both POSTs (azuread.py lines 74-77/117-120). -/
def formHeaders : List (String × String) :=
  [("Content-Type", "application/x-www-form-urlencoded; charset=UTF-8")]

/-- Modelled from the spec: `OAuthenticator.fetch` is defined in
`oauth2.py`, which is not under src/ — per the spec (§4.2, §7) it issues
the request and parses the response body as JSON, and a malformed
(non-JSON) body fails with a parse error (the spec's ProtocolError), with
no result produced.  `json.loads(resp.body)` in `get_user_attributes`
behaves the same way on its two responses. -/
def fetchJson (net : HTTPRequest → Option Json) (req : HTTPRequest) :
    Except PyError Json :=
  match net req with
  | some j => .ok j
  | none => .error .jsonDecodeError

/-- The token-endpoint POST built by `authenticate` (azuread.py lines
105-126): urlencoded `client_id`, `client_secret`,
`grant_type=authorization_code`, `code`, `redirect_uri`, sent to the
resolved token URL. -/
def auth_token_request (cfg : Config) (code callback_url url : String) :
    HTTPRequest :=
  ⟨url, "POST", formHeaders,
   some (urlencode [("client_id", cfg.client_id),
                    ("client_secret", cfg.client_secret),
                    ("grant_type", "authorization_code"),
                    ("code", code),
                    ("redirect_uri", callback_url)])⟩

/-- `AzureAdOAuthenticator.authenticate` (azuread.py lines 102-150).
`code` is `handler.get_argument("code")` and `callback_url` is
`self.get_callback_url(handler)`, both read from the host request;
`pyjwt2` is the module-level `PYJWT_2` flag (azuread.py line 20).  The
method builds the token-endpoint POST, parses the response, reads
`access_token` and `id_token` (a `dict` subscript raising `KeyError` when
absent), decodes the ID token (pyjwt raises `DecodeError` on a non-string
token), logs the decoded claims (a side effect with no bearing on the
result, not modelled), and assembles
`{"name": decoded[username_claim], "auth_state": {"access_token": ...,
"user": decoded}}`.  Each raising line is a `match` whose error case
propagates, mirroring Python exception flow. -/
def authenticate (cfg : Config) (pyjwt2 : Bool) (code : String)
    (callback_url : String) (net : HTTPRequest → Option Json) :
    Except PyError Json :=
  match token_url_default cfg with
  | .error e => .error e
  | .ok url =>
    match fetchJson net (auth_token_request cfg code callback_url url) with
    | .error e => .error e
    | .ok resp_json =>
      match getItem resp_json "access_token" with
      | .error e => .error e
      | .ok access_token =>
        match getItem resp_json "id_token" with
        | .error e => .error e
        | .ok (Json.str idStr) =>
          (match (if pyjwt2 then jwt_decode_pyjwt2 idStr cfg.client_id
                  else jwt_decode_pyjwt1 idStr) with
           | none => .error .jwtDecodeError
           | some decoded =>
             match dictGet decoded cfg.username_claim with
             | none => .error (.keyError cfg.username_claim)
             | some nameVal =>
               .ok (Json.obj (dictInsert (dictInsert [] "name" nameVal)
                 "auth_state" (Json.obj
                   (dictInsert (dictInsert [] "access_token" access_token)
                     "user" (Json.obj decoded))))))
        | .ok _ => .error .jwtDecodeError

/-- The client-credentials POST built by `get_user_attributes` (azuread.py
lines 65-83): urlencoded `scope=https://graph.microsoft.com/.default`
(a singleton list under `doseq=True`), `client_secret`,
`grant_type=client_credentials`, `client_id`, sent to the resolved token
URL. -/
def graph_token_request (cfg : Config) (url : String) : HTTPRequest :=
  ⟨url, "POST", formHeaders,
   some (urlencode [("scope", "https://graph.microsoft.com/.default"),
                    ("client_secret", cfg.client_secret),
                    ("grant_type", "client_credentials"),
                    ("client_id", cfg.client_id)])⟩

/-- The Graph profile GET built by `get_user_attributes` (azuread.py lines
88-96): `https://graph.microsoft.com/v1.0/users/{oid}` with header
`Authorization: Bearer {access_token}`. -/
def graph_user_request (oid accessToken : String) : HTTPRequest :=
  ⟨"https://graph.microsoft.com/v1.0/users/" ++ oid, "GET",
   [("Authorization", "Bearer " ++ accessToken)], none⟩

/-- `AzureAdOAuthenticator.get_user_attributes` (azuread.py lines 62-99):
client-credentials POST to the token endpoint, then an authenticated GET
of the Graph user profile, whose parsed JSON body is returned verbatim.
Alongside the result, the list of requests issued (in order) is returned.
`'Bearer {0}'.format(access_token)` is modelled for string tokens (the
only case the token-endpoint contract produces; Python would stringify
other values). -/
def get_user_attributes (cfg : Config) (oid : String)
    (net : HTTPRequest → Option Json) :
    Except PyError Json × List HTTPRequest :=
  match token_url_default cfg with
  | .error e => (.error e, [])
  | .ok turl =>
    let req1 := graph_token_request cfg turl
    match fetchJson net req1 with
    | .error e => (.error e, [req1])
    | .ok j1 =>
      match getItem j1 "access_token" with
      | .error e => (.error e, [req1])
      | .ok (.str tok) =>
          let req2 := graph_user_request oid tok
          (match fetchJson net req2 with
           | .error e => (.error e, [req1, req2])
           | .ok j2 => (.ok j2, [req1, req2]))
      | .ok _ => (.error .typeError, [req1])

/-! ## Helper lemmas -/

/-- The only error `fetchJson` produces is the JSON parse error. -/
theorem fetchJson_error_eq (net : HTTPRequest → Option Json) (req : HTTPRequest)
    (e : PyError) (h : fetchJson net req = .error e) : e = .jsonDecodeError := by
  unfold fetchJson at h
  cases hn : net req <;> rw [hn] at h <;> simp at h
  exact h.symm

/-- The only errors a `dict` subscript produces are `KeyError` and
`TypeError`. -/
theorem getItem_error_shape (j : Json) (k : String) (e : PyError)
    (h : getItem j k = .error e) : e = .keyError k ∨ e = .typeError := by
  unfold getItem at h
  split at h
  · split at h <;> simp_all
  · simp_all

/-- A `ValueError` escaping `authenticate` can only come from URL
resolution: no later step raises one. -/
theorem authenticate_valueError_source (cfg : Config) (pyjwt2 : Bool)
    (code cb : String) (net : HTTPRequest → Option Json) (m : String)
    (h : authenticate cfg pyjwt2 code cb net = .error (.valueError m)) :
    token_url_default cfg = .error (.valueError m) := by
  unfold authenticate at h
  split at h
  · next e heq =>
      simp only [Except.error.injEq] at h
      rw [h] at heq
      exact heq
  · next url heq =>
      split at h
      · next e heq2 =>
          simp only [Except.error.injEq] at h
          rw [h] at heq2
          have := fetchJson_error_eq _ _ _ heq2
          simp at this
      · next resp heq2 =>
          split at h
          · next e heq3 =>
              simp only [Except.error.injEq] at h
              rw [h] at heq3
              rcases getItem_error_shape _ _ _ heq3 with h' | h' <;> simp at h'
          · next atok heq3 =>
              split at h
              · next e heq4 =>
                  simp only [Except.error.injEq] at h
                  rw [h] at heq4
                  rcases getItem_error_shape _ _ _ heq4 with h' | h' <;> simp at h'
              · next idStr heq4 =>
                  split at h
                  · simp at h
                  · next decoded heq5 =>
                      split at h <;> simp at h
              · simp at h

/-! ## Theorems about the claims -/

/-- C4: for every tenant identifier, API version 1 resolves the authorize
URL to `https://login.microsoftonline.com/{t}/oauth2/authorize` and the
token URL to `https://login.microsoftonline.com/{t}/oauth2/token`, and
version 2 yields the same URLs with a `/v2.0/` segment inserted before the
final path component; in particular for tenant `"abc"` and version 1 the
authorize URL is exactly
`https://login.microsoftonline.com/abc/oauth2/authorize`. -/
theorem url_resolution_by_version (cfg : Config) :
    (cfg.access_token_version = 1 →
      authorize_url_default cfg =
        .ok ("https://login.microsoftonline.com/" ++ cfg.tenant_id ++ "/oauth2/authorize") ∧
      token_url_default cfg =
        .ok ("https://login.microsoftonline.com/" ++ cfg.tenant_id ++ "/oauth2/token")) ∧
    (cfg.access_token_version = 2 →
      authorize_url_default cfg =
        .ok ("https://login.microsoftonline.com/" ++ cfg.tenant_id ++ "/oauth2/v2.0/authorize") ∧
      token_url_default cfg =
        .ok ("https://login.microsoftonline.com/" ++ cfg.tenant_id ++ "/oauth2/v2.0/token")) ∧
    authorize_url_default ⟨"abc", 1, cfg.client_id, cfg.client_secret, cfg.username_claim⟩ =
      .ok "https://login.microsoftonline.com/abc/oauth2/authorize" := by
  refine ⟨fun h1 => ?_, fun h2 => ?_, rfl⟩
  · constructor <;> simp [authorize_url_default, token_url_default, h1]
  · constructor <;> norm_num [authorize_url_default, token_url_default, h2]

/-- Witness for C4: version 1, tenant `"abc"`, evaluated concretely. -/
theorem url_resolution_by_version_witness :
    authorize_url_default ⟨"abc", 1, "client1", "secret", "name"⟩ =
      .ok "https://login.microsoftonline.com/abc/oauth2/authorize" ∧
    token_url_default ⟨"abc", 1, "client1", "secret", "name"⟩ =
      .ok "https://login.microsoftonline.com/abc/oauth2/token" :=
  (url_resolution_by_version ⟨"abc", 1, "client1", "secret", "name"⟩).1 rfl

/-- C5: for every API version other than 1 or 2, both URL derivations fail
with `ValueError('Invalid token version!')`, and both operations that
resolve the token URL at first use (`authenticate`,
`get_user_attributes`) fail the same way without issuing any request —
nothing is silently defaulted. -/
theorem invalid_version_fails (cfg : Config)
    (h1 : cfg.access_token_version ≠ 1) (h2 : cfg.access_token_version ≠ 2) :
    authorize_url_default cfg = .error (.valueError "Invalid token version!") ∧
    token_url_default cfg = .error (.valueError "Invalid token version!") ∧
    (∀ pyjwt2 code cb net, authenticate cfg pyjwt2 code cb net =
      .error (.valueError "Invalid token version!")) ∧
    (∀ oid net, get_user_attributes cfg oid net =
      (.error (.valueError "Invalid token version!"), [])) := by
  have ht : token_url_default cfg = .error (.valueError "Invalid token version!") := by
    simp [token_url_default, h1, h2]
  refine ⟨by simp [authorize_url_default, h1, h2], ht, ?_, ?_⟩
  · intro pyjwt2 code cb net
    simp [authenticate, ht]
  · intro oid net
    simp [get_user_attributes, ht]

/-- Witness for C5: version 3, evaluated concretely. -/
theorem invalid_version_fails_witness :
    authorize_url_default ⟨"abc", 3, "client1", "secret", "name"⟩ =
      .error (.valueError "Invalid token version!") ∧
    authenticate ⟨"abc", 3, "client1", "secret", "name"⟩ true "c" "cb"
      (fun _ => none) = .error (.valueError "Invalid token version!") := by
  have h := invalid_version_fails ⟨"abc", 3, "client1", "secret", "name"⟩
    (by decide) (by decide)
  exact ⟨h.1, h.2.2.1 true "c" "cb" (fun _ => none)⟩

/-- Counterexample to C9: with the tenant unset, `_tenant_id_default`
yields the empty string and URL resolution *succeeds* (producing URLs with
an empty tenant segment) instead of failing with a configuration error. -/
theorem missing_tenant_counterexample :
    tenant_id_default none = "" ∧
    authorize_url_default ⟨tenant_id_default none, 1, "client1", "secret", "name"⟩ =
      .ok "https://login.microsoftonline.com//oauth2/authorize" ∧
    token_url_default ⟨tenant_id_default none, 1, "client1", "secret", "name"⟩ =
      .ok "https://login.microsoftonline.com//oauth2/token" :=
  ⟨rfl, rfl, rfl⟩

/-- C9 as amended: a missing tenant identifier is not detected — for any
configuration whose tenant is the unset default (empty string) and whose
API version is 1 or 2, URL resolution succeeds with the empty string
embedded as the tenant path segment, and authentication proceeds past URL
resolution rather than failing with a configuration error. -/
theorem missing_tenant_not_detected (cfg : Config)
    (_htenant : cfg.tenant_id = tenant_id_default none)
    (hv : cfg.access_token_version = 1 ∨ cfg.access_token_version = 2) :
    (∃ u, authorize_url_default cfg = .ok u) ∧
    (∃ u, token_url_default cfg = .ok u) ∧
    ∀ pyjwt2 code cb net, authenticate cfg pyjwt2 code cb net ≠
      .error (.valueError "Invalid token version!") := by
  rcases hv with hv | hv
  · refine ⟨⟨"https://login.microsoftonline.com/" ++ cfg.tenant_id ++ "/oauth2/authorize",
        by simp [authorize_url_default, hv]⟩,
      ⟨"https://login.microsoftonline.com/" ++ cfg.tenant_id ++ "/oauth2/token",
        by simp [token_url_default, hv]⟩, ?_⟩
    intro pyjwt2 code cb net hcontra
    have := authenticate_valueError_source cfg pyjwt2 code cb net _ hcontra
    simp [token_url_default, hv] at this
  · refine ⟨⟨"https://login.microsoftonline.com/" ++ cfg.tenant_id ++ "/oauth2/v2.0/authorize",
        by norm_num [authorize_url_default, hv]⟩,
      ⟨"https://login.microsoftonline.com/" ++ cfg.tenant_id ++ "/oauth2/v2.0/token",
        by norm_num [token_url_default, hv]⟩, ?_⟩
    intro pyjwt2 code cb net hcontra
    have := authenticate_valueError_source cfg pyjwt2 code cb net _ hcontra
    norm_num [token_url_default, hv] at this
    exact Except.noConfusion this

/-- C1: for every token-endpoint response carrying an `access_token`
string and an `id_token` whose payload decodes to the claims
`{"name": "alice", "aud": "client1"}`, `authenticate` (with the default
username claim `"name"`, under either pyjwt branch) returns the identity
record with username `"alice"`, the response's access token, and the full
claims mapping as `auth_state.user`. -/
theorem authenticate_extracts_identity (cfg : Config) (pyjwt2 : Bool)
    (code cb turl a idt : String) (net : HTTPRequest → Option Json) (resp : Json)
    (hclaim : cfg.username_claim = username_claim_default)
    (hurl : token_url_default cfg = .ok turl)
    (hnet : net (auth_token_request cfg code cb turl) = some resp)
    (hacc : getItem resp "access_token" = .ok (Json.str a))
    (hid : getItem resp "id_token" = .ok (Json.str idt))
    (hdec : jwtPayloadDecode idt =
      some [("name", Json.str "alice"), ("aud", Json.str "client1")]) :
    authenticate cfg pyjwt2 code cb net =
      .ok (Json.obj [("name", Json.str "alice"),
        ("auth_state", Json.obj [("access_token", Json.str a),
          ("user", Json.obj [("name", Json.str "alice"),
            ("aud", Json.str "client1")])])]) := by
  have hdec2 : (if pyjwt2 then jwt_decode_pyjwt2 idt cfg.client_id
      else jwt_decode_pyjwt1 idt) =
      some [("name", Json.str "alice"), ("aud", Json.str "client1")] := by
    cases pyjwt2 <;>
      simp [jwt_decode_pyjwt1, jwt_decode_pyjwt2, hdec]
  simp [authenticate, hurl, fetchJson, hnet, hacc, hid, hdec2, hclaim,
    username_claim_default, dictGet, dictInsert]

/-- Witness for C1: the concrete exchange of the spec's example — access
token `"A"`, ID token `e30.eyJuYW1lIjoiYWxpY2UiLCJhdWQiOiJjbGllbnQxIn0.sig`
(payload `{"name":"alice","aud":"client1"}`), tenant `"abc"`, version 1,
default username claim. -/
theorem authenticate_extracts_identity_witness :
    jwtPayloadDecode "e30.eyJuYW1lIjoiYWxpY2UiLCJhdWQiOiJjbGllbnQxIn0.sig" =
      some [("name", Json.str "alice"), ("aud", Json.str "client1")] ∧
    authenticate ⟨"abc", 1, "client1", "secret", "name"⟩ true "somecode" "https://hub/callback"
      (fun _ => some (Json.obj [("access_token", Json.str "A"),
        ("id_token", Json.str "e30.eyJuYW1lIjoiYWxpY2UiLCJhdWQiOiJjbGllbnQxIn0.sig")]))
    = .ok (Json.obj [("name", Json.str "alice"),
        ("auth_state", Json.obj [("access_token", Json.str "A"),
          ("user", Json.obj [("name", Json.str "alice"),
            ("aud", Json.str "client1")])])]) :=
  ⟨rfl,
   authenticate_extracts_identity ⟨"abc", 1, "client1", "secret", "name"⟩ true
     "somecode" "https://hub/callback"
     "https://login.microsoftonline.com/abc/oauth2/token" "A"
     "e30.eyJuYW1lIjoiYWxpY2UiLCJhdWQiOiJjbGllbnQxIn0.sig"
     (fun _ => some (Json.obj [("access_token", Json.str "A"),
       ("id_token", Json.str "e30.eyJuYW1lIjoiYWxpY2UiLCJhdWQiOiJjbGllbnQxIn0.sig")]))
     (Json.obj [("access_token", Json.str "A"),
       ("id_token", Json.str "e30.eyJuYW1lIjoiYWxpY2UiLCJhdWQiOiJjbGllbnQxIn0.sig")])
     rfl rfl rfl rfl rfl rfl⟩

/-- Witness for the amended C9: empty tenant, version 1, evaluated
concretely. -/
theorem missing_tenant_not_detected_witness :
    (∃ u, authorize_url_default ⟨"", 1, "client1", "secret", "name"⟩ = .ok u) ∧
    (∃ u, token_url_default ⟨"", 1, "client1", "secret", "name"⟩ = .ok u) ∧
    ∀ pyjwt2 code cb net,
      authenticate ⟨"", 1, "client1", "secret", "name"⟩ pyjwt2 code cb net ≠
        .error (.valueError "Invalid token version!") :=
  missing_tenant_not_detected ⟨"", 1, "client1", "secret", "name"⟩ rfl (Or.inl rfl)

/-- Both pyjwt branches of azuread.py lines 133-141 decode to the same
claims: with signature verification disabled neither validates anything. -/
theorem jwt_branch_eq (pyjwt2 : Bool) (idt aud : String) :
    (if pyjwt2 then jwt_decode_pyjwt2 idt aud else jwt_decode_pyjwt1 idt) =
      jwtPayloadDecode idt := by
  cases pyjwt2 <;> rfl

/-- C2 as amended: if the decoded payload lacks the configured username
claim, `authenticate` fails with `KeyError` on that claim and no identity
record is produced; every successful call carries a username equal to the
claim's stored value — the username is never absent, but the code does not
reject an empty one: a payload whose username claim is the empty string
yields a record whose username is the empty string. -/
theorem username_claim_extraction (cfg : Config) (pyjwt2 : Bool)
    (code cb turl idt : String) (net : HTTPRequest → Option Json)
    (resp atok : Json) (claims : List (String × Json))
    (hurl : token_url_default cfg = .ok turl)
    (hnet : net (auth_token_request cfg code cb turl) = some resp)
    (hacc : getItem resp "access_token" = .ok atok)
    (hid : getItem resp "id_token" = .ok (Json.str idt))
    (hdec : jwtPayloadDecode idt = some claims) :
    (dictGet claims cfg.username_claim = none →
      authenticate cfg pyjwt2 code cb net =
        .error (.keyError cfg.username_claim)) ∧
    (∀ v, dictGet claims cfg.username_claim = some v →
      authenticate cfg pyjwt2 code cb net =
        .ok (Json.obj [("name", v),
          ("auth_state", Json.obj [("access_token", atok),
            ("user", Json.obj claims)])])) := by
  have hdec2 := (jwt_branch_eq pyjwt2 idt cfg.client_id).trans hdec
  constructor
  · intro hmiss
    simp [authenticate, hurl, fetchJson, hnet, hacc, hid, hdec2, hmiss]
  · intro v hv
    simp [authenticate, hurl, fetchJson, hnet, hacc, hid, hdec2, hv, dictInsert]

/-- Witness for the amended C2: a payload `{"aud":"client1"}` with no
`name` claim fails with `KeyError("name")`. -/
theorem username_claim_extraction_witness :
    jwtPayloadDecode "e30.eyJhdWQiOiJjbGllbnQxIn0.sig" =
      some [("aud", Json.str "client1")] ∧
    authenticate ⟨"abc", 1, "client1", "secret", "name"⟩ true "c" "cb"
      (fun _ => some (Json.obj [("access_token", Json.str "A"),
        ("id_token", Json.str "e30.eyJhdWQiOiJjbGllbnQxIn0.sig")]))
    = .error (.keyError "name") :=
  ⟨rfl,
   (username_claim_extraction ⟨"abc", 1, "client1", "secret", "name"⟩ true
     "c" "cb" "https://login.microsoftonline.com/abc/oauth2/token"
     "e30.eyJhdWQiOiJjbGllbnQxIn0.sig"
     (fun _ => some (Json.obj [("access_token", Json.str "A"),
       ("id_token", Json.str "e30.eyJhdWQiOiJjbGllbnQxIn0.sig")]))
     (Json.obj [("access_token", Json.str "A"),
       ("id_token", Json.str "e30.eyJhdWQiOiJjbGllbnQxIn0.sig")])
     (Json.str "A") [("aud", Json.str "client1")]
     rfl rfl rfl rfl rfl).1 rfl⟩

/-- Counterexample to C2 as stated: a successful call can return a record
whose username is the empty string.  With payload `{"name":""}` the
authentication succeeds and the returned record's username is `""` — the
code never checks the claim's value for emptiness. -/
theorem empty_username_counterexample :
    authenticate ⟨"abc", 1, "client1", "secret", "name"⟩ true "c" "cb"
      (fun _ => some (Json.obj [("access_token", Json.str "A"),
        ("id_token", Json.str "e30.eyJuYW1lIjoiIn0.sig")]))
    = .ok (Json.obj [("name", Json.str ""),
        ("auth_state", Json.obj [("access_token", Json.str "A"),
          ("user", Json.obj [("name", Json.str "")])])]) := rfl

/-- C3: the exchange fails, producing no identity record, when the
response body is not JSON (failure surfaced by the fetch helper) or when
the parsed body lacks the `access_token` or the `id_token` key (`KeyError`
from the `dict` subscripts at azuread.py lines 130-131).  `authenticate`
returns a single `Except` value, so an error excludes any record — there
is no partial-success path. -/
theorem exchange_failure_no_record (cfg : Config) (pyjwt2 : Bool)
    (code cb turl : String) (net : HTTPRequest → Option Json)
    (hurl : token_url_default cfg = .ok turl) :
    (net (auth_token_request cfg code cb turl) = none →
      authenticate cfg pyjwt2 code cb net = .error .jsonDecodeError) ∧
    (∀ fields, net (auth_token_request cfg code cb turl) = some (Json.obj fields) →
      dictGet fields "access_token" = none →
      authenticate cfg pyjwt2 code cb net = .error (.keyError "access_token")) ∧
    (∀ fields atok, net (auth_token_request cfg code cb turl) = some (Json.obj fields) →
      dictGet fields "access_token" = some atok →
      dictGet fields "id_token" = none →
      authenticate cfg pyjwt2 code cb net = .error (.keyError "id_token")) := by
  refine ⟨fun hnone => ?_, fun fields hresp hmiss => ?_, fun fields atok hresp hacc hmiss => ?_⟩
  · simp [authenticate, hurl, fetchJson, hnone]
  · simp [authenticate, hurl, fetchJson, hresp, getItem, hmiss]
  · simp [authenticate, hurl, fetchJson, hresp, getItem, hacc, hmiss]

/-- Witness for C3: a non-JSON body, a body without `access_token`, and a
body without `id_token`, each evaluated concretely. -/
theorem exchange_failure_no_record_witness :
    authenticate ⟨"abc", 1, "client1", "secret", "name"⟩ true "c" "cb"
      (fun _ => none) = .error .jsonDecodeError ∧
    authenticate ⟨"abc", 1, "client1", "secret", "name"⟩ true "c" "cb"
      (fun _ => some (Json.obj [("id_token", Json.str "x")]))
      = .error (.keyError "access_token") ∧
    authenticate ⟨"abc", 1, "client1", "secret", "name"⟩ true "c" "cb"
      (fun _ => some (Json.obj [("access_token", Json.str "A")]))
      = .error (.keyError "id_token") :=
  ⟨(exchange_failure_no_record ⟨"abc", 1, "client1", "secret", "name"⟩ true "c" "cb"
      "https://login.microsoftonline.com/abc/oauth2/token" (fun _ => none) rfl).1 rfl,
   (exchange_failure_no_record ⟨"abc", 1, "client1", "secret", "name"⟩ true "c" "cb"
      "https://login.microsoftonline.com/abc/oauth2/token"
      (fun _ => some (Json.obj [("id_token", Json.str "x")])) rfl).2.1
      [("id_token", Json.str "x")] rfl rfl,
   (exchange_failure_no_record ⟨"abc", 1, "client1", "secret", "name"⟩ true "c" "cb"
      "https://login.microsoftonline.com/abc/oauth2/token"
      (fun _ => some (Json.obj [("access_token", Json.str "A")])) rfl).2.2
      [("access_token", Json.str "A")] (Json.str "A") rfl rfl rfl⟩

/-- C6, evaluated at the failing input: with pyjwt >= 2 (in the releases
since 2.0.1, where disabling signature verification also disables audience
validation), an ID token whose `aud` claim (`"evil"`) differs from the
configured client identifier (`"client1"`) still decodes, and
`authenticate` still returns an identity record — the `audience` argument
passed at azuread.py line 137 has no effect. -/
theorem audience_mismatch_not_rejected :
    jwt_decode_pyjwt2 "e30.eyJuYW1lIjoiYWxpY2UiLCJhdWQiOiJldmlsIn0.sig" "client1" =
      some [("name", Json.str "alice"), ("aud", Json.str "evil")] ∧
    authenticate ⟨"abc", 1, "client1", "secret", "name"⟩ true "c" "cb"
      (fun _ => some (Json.obj [("access_token", Json.str "A"),
        ("id_token", Json.str "e30.eyJuYW1lIjoiYWxpY2UiLCJhdWQiOiJldmlsIn0.sig")]))
    = .ok (Json.obj [("name", Json.str "alice"),
        ("auth_state", Json.obj [("access_token", Json.str "A"),
          ("user", Json.obj [("name", Json.str "alice"),
            ("aud", Json.str "evil")])])]) := ⟨rfl, rfl⟩

/-- C7: for every directory object identifier, the lookup issues exactly
two calls in order — the client-credentials POST to the token endpoint
(urlencoded `grant_type=client_credentials`, `client_id`, `client_secret`,
`scope=https://graph.microsoft.com/.default`, expecting `access_token` in
the JSON response) and then the GET of
`https://graph.microsoft.com/v1.0/users/{oid}` with
`Authorization: Bearer {access_token}` — and returns the second response's
JSON body verbatim. -/
theorem get_user_attributes_two_calls (cfg : Config) (oid turl tok : String)
    (net : HTTPRequest → Option Json) (j1 j2 : Json)
    (hurl : token_url_default cfg = .ok turl)
    (h1 : net (graph_token_request cfg turl) = some j1)
    (hacc : getItem j1 "access_token" = .ok (Json.str tok))
    (h2 : net (graph_user_request oid tok) = some j2) :
    get_user_attributes cfg oid net =
      (.ok j2, [graph_token_request cfg turl, graph_user_request oid tok]) ∧
    graph_token_request cfg turl = ⟨turl, "POST", formHeaders,
      some (urlencode [("scope", "https://graph.microsoft.com/.default"),
                       ("client_secret", cfg.client_secret),
                       ("grant_type", "client_credentials"),
                       ("client_id", cfg.client_id)])⟩ ∧
    graph_user_request oid tok = ⟨"https://graph.microsoft.com/v1.0/users/" ++ oid,
      "GET", [("Authorization", "Bearer " ++ tok)], none⟩ := by
  refine ⟨?_, rfl, rfl⟩
  simp [get_user_attributes, hurl, fetchJson, h1, hacc, h2]

/-- Witness for C7: a concrete two-call run, with the first request's body
shown fully urlencoded. -/
theorem get_user_attributes_two_calls_witness :
    get_user_attributes ⟨"abc", 1, "client1", "secret", "name"⟩ "oid1"
      (fun r => if r.method = "POST"
        then some (Json.obj [("access_token", Json.str "T")])
        else some (Json.obj [("displayName", Json.str "Alice")]))
      = (.ok (Json.obj [("displayName", Json.str "Alice")]),
         [graph_token_request ⟨"abc", 1, "client1", "secret", "name"⟩
            "https://login.microsoftonline.com/abc/oauth2/token",
          graph_user_request "oid1" "T"]) ∧
    graph_token_request ⟨"abc", 1, "client1", "secret", "name"⟩
        "https://login.microsoftonline.com/abc/oauth2/token" =
      ⟨"https://login.microsoftonline.com/abc/oauth2/token", "POST", formHeaders,
       some ("scope=https%3A%2F%2Fgraph.microsoft.com%2F.default&client_secret=secret" ++
         "&grant_type=client_credentials&client_id=client1")⟩ ∧
    graph_user_request "oid1" "T" =
      ⟨"https://graph.microsoft.com/v1.0/users/oid1", "GET",
       [("Authorization", "Bearer T")], none⟩ :=
  ⟨(get_user_attributes_two_calls ⟨"abc", 1, "client1", "secret", "name"⟩ "oid1"
      "https://login.microsoftonline.com/abc/oauth2/token" "T"
      (fun r => if r.method = "POST"
        then some (Json.obj [("access_token", Json.str "T")])
        else some (Json.obj [("displayName", Json.str "Alice")]))
      (Json.obj [("access_token", Json.str "T")])
      (Json.obj [("displayName", Json.str "Alice")])
      rfl rfl rfl rfl).1,
   by decide, rfl⟩

/-- C8: `authenticate` is a pure function of the configuration, the pyjwt
flag, the authorization code, the callback URL and the network's responses
— two runs of the embedded token exchange on identical inputs (the same
code and the same request-to-response mapping) produce identical results,
formalising the absence of hidden per-call state. -/
theorem authenticate_deterministic (cfg : Config) (pyjwt2 : Bool)
    (code cb : String) (net : HTTPRequest → Option Json)
    (r1 r2 : Except PyError Json)
    (h1 : r1 = authenticate cfg pyjwt2 code cb net)
    (h2 : r2 = authenticate cfg pyjwt2 code cb net) : r1 = r2 :=
  h1.trans h2.symm

/-- Witness for C8: two concrete runs against the same stub responses. -/
theorem authenticate_deterministic_witness :
    authenticate ⟨"abc", 1, "client1", "secret", "name"⟩ true "c" "cb"
      (fun _ => some (Json.obj [("access_token", Json.str "A"),
        ("id_token", Json.str "e30.eyJuYW1lIjoiYm9iIn0.sig")])) =
    authenticate ⟨"abc", 1, "client1", "secret", "name"⟩ true "c" "cb"
      (fun _ => some (Json.obj [("access_token", Json.str "A"),
        ("id_token", Json.str "e30.eyJuYW1lIjoiYm9iIn0.sig")])) :=
  authenticate_deterministic ⟨"abc", 1, "client1", "secret", "name"⟩ true "c" "cb"
    (fun _ => some (Json.obj [("access_token", Json.str "A"),
      ("id_token", Json.str "e30.eyJuYW1lIjoiYm9iIn0.sig")])) _ _ rfl rfl

/-- C10: every successful `authenticate` call returns exactly
`{"name": decoded[username_claim],
  "auth_state": {"access_token": <response token>, "user": decoded}}`:
the username equals the value stored under the configured username claim
inside `auth_state.user`, `auth_state.access_token` is the response's
`access_token` value passed through unmodified, `auth_state` holds exactly
those two keys, and the raw `id_token` string is not a component of the
record (only its decoded claims are). -/
theorem success_record_invariant (cfg : Config) (pyjwt2 : Bool)
    (code cb : String) (net : HTTPRequest → Option Json) (u : Json)
    (h : authenticate cfg pyjwt2 code cb net = .ok u) :
    ∃ turl resp atok idt claims nameVal,
      token_url_default cfg = .ok turl ∧
      net (auth_token_request cfg code cb turl) = some resp ∧
      getItem resp "access_token" = .ok atok ∧
      getItem resp "id_token" = .ok (Json.str idt) ∧
      jwtPayloadDecode idt = some claims ∧
      dictGet claims cfg.username_claim = some nameVal ∧
      u = Json.obj [("name", nameVal),
        ("auth_state", Json.obj [("access_token", atok),
          ("user", Json.obj claims)])] := by
  unfold authenticate at h
  split at h
  · exact absurd h (by simp)
  · next url hurl =>
    split at h
    · exact absurd h (by simp)
    · next resp hresp =>
      have hnet : net (auth_token_request cfg code cb url) = some resp := by
        unfold fetchJson at hresp
        cases hn : net (auth_token_request cfg code cb url) <;>
          rw [hn] at hresp <;> simp_all
      split at h
      · exact absurd h (by simp)
      · next atok hatok =>
        split at h
        · exact absurd h (by simp)
        · next idStr hid =>
          rw [jwt_branch_eq pyjwt2 idStr cfg.client_id] at h
          split at h
          · exact absurd h (by simp)
          · next claims hclaims =>
            split at h
            · exact absurd h (by simp)
            · next nameVal hname =>
              refine ⟨url, resp, atok, idStr, claims, nameVal,
                hurl, hnet, hatok, hid, hclaims, hname, ?_⟩
              have := h.symm
              simp only [Except.ok.injEq] at this
              rw [this]
              simp [dictInsert]
        · exact absurd h (by simp)

/-- Witness for C10: a concrete successful run (payload `{"name":"bob"}`),
its invariant instantiated. -/
theorem success_record_invariant_witness :
    ∃ turl resp atok idt claims nameVal,
      token_url_default ⟨"abc", 1, "client1", "secret", "name"⟩ = .ok turl ∧
      (fun (_ : HTTPRequest) => some (Json.obj [("access_token", Json.str "A"),
        ("id_token", Json.str "e30.eyJuYW1lIjoiYm9iIn0.sig")]))
        (auth_token_request ⟨"abc", 1, "client1", "secret", "name"⟩ "c" "cb" turl)
        = some resp ∧
      getItem resp "access_token" = .ok atok ∧
      getItem resp "id_token" = .ok (Json.str idt) ∧
      jwtPayloadDecode idt = some claims ∧
      dictGet claims "name" = some nameVal ∧
      Json.obj [("name", Json.str "bob"),
        ("auth_state", Json.obj [("access_token", Json.str "A"),
          ("user", Json.obj [("name", Json.str "bob")])])]
        = Json.obj [("name", nameVal),
            ("auth_state", Json.obj [("access_token", atok),
              ("user", Json.obj claims)])] :=
  success_record_invariant ⟨"abc", 1, "client1", "secret", "name"⟩ true "c" "cb"
    (fun _ => some (Json.obj [("access_token", Json.str "A"),
      ("id_token", Json.str "e30.eyJuYW1lIjoiYm9iIn0.sig")]))
    (Json.obj [("name", Json.str "bob"),
      ("auth_state", Json.obj [("access_token", Json.str "A"),
        ("user", Json.obj [("name", Json.str "bob")])])])
    rfl

end AzureAd
